import Mathlib

/-!
Verification of the OUROBOROS installer (`install.py`).

The installer is a single-threaded orchestrator: it probes the host
environment (tools via `which`, libraries via `pkg-config --exists`),
then drives external processes (`cmake` configure/build/install,
`ctest`, `sudo rm`) for one of the commands
install / build / clean / uninstall / test.

We embed it shallowly: the outside world (which tools and libraries
resolve, the exit code each external process would return, which files
and directories exist) is a record `Env`; every command function is a
pure function from `Env` and the parsed arguments to a success flag
and a trace of observable events (process spawns, probes, log lines),
mirroring the Python control flow line by line.
-/

namespace Ouroboros

/-- The five positional commands accepted by `argparse`
(`choices=["install", "build", "clean", "uninstall", "test"]`). -/
inductive Command where
  | install
  | build
  | clean
  | uninstall
  | test
deriving DecidableEq, Repr

/-- Parsed command-line arguments (`args` in `main`).  `prefixArg`
models `args.prefix` (`--prefix PATH`, default `None`). -/
structure Args where
  command : Command
  debug : Bool
  debug_log : Bool
  prefixArg : Option String
deriving DecidableEq, Repr

/-- The host environment and the behaviour of every external process the
installer can spawn, fixed for one invocation:
* `cmake_ok`, `gxx_ok`, `clangxx_ok`, `pkgconfig_ok`: whether
  `which cmake` / `which g++` / `which clang++` / `which pkg-config`
  exits 0;
* `libOk p`: whether `pkg-config --exists p` exits 0;
* `configureExit`, `compileExit`, `installExit`, `ctestExit`: the exit
  codes of `cmake -S .. -B ..`, `cmake --build ..`,
  `sudo cmake --install ..` and `ctest ..`;
* `rmExit f`: the exit code of `sudo rm -f f`;
* `jobs`: `multiprocessing.cpu_count()`;
* `buildDirExists`, `makefileExists`, `binaryExists`: whether the build
  directory, `build/Makefile` and `build/ouroboros` exist;
* `fileExists f`: whether path `f` exists (or is a symlink, for the
  uninstall loop's `f.exists() or f.is_symlink()`);
* `binarySize`, `installedSize`: `stat().st_size` of the built and of
  the installed binary (used only in log messages). -/
structure Env where
  cmake_ok : Bool
  gxx_ok : Bool
  clangxx_ok : Bool
  pkgconfig_ok : Bool
  libOk : String → Bool
  configureExit : Int
  compileExit : Int
  installExit : Int
  ctestExit : Int
  rmExit : String → Int
  jobs : Nat
  buildDirExists : Bool
  makefileExists : Bool
  binaryExists : Bool
  fileExists : String → Bool
  binarySize : Nat
  installedSize : Nat

/-- One observable step of the installer: an external process spawn, a
probe, or an operator-visible output line. -/
inductive Event where
  /-- `run_cmd_capture(["which", name])` -/
  | checkTool (name : String)
  /-- `run_cmd_capture(["pkg-config", "--exists", pkg])` -/
  | checkLib (pkg : String)
  /-- `run_cmd(cmake_args)` — the configure step -/
  | configure (cargs : List String)
  /-- `run_cmd(["cmake", "--build", build_dir, "-jN"])` -/
  | compile (jobs : Nat)
  /-- `run_cmd(["sudo", "cmake", "--install", build_dir])` -/
  | installProc (dir : String)
  /-- `run_cmd(["ctest", "--test-dir", build_dir, "--output-on-failure"])` -/
  | ctest (dir : String)
  /-- `run_cmd_sudo(["rm", "-f", path])` -/
  | rmProc (path : String)
  /-- `shutil.rmtree(build_dir)` -/
  | rmTree (path : String)
  /-- the `print(f"           - {friendly} ({key})")` line of the
  missing-library report -/
  | reportMissing (key friendly : String)
  | logDebug (msg : String)
  | logInfo (msg : String)
  | logWarn (msg : String)
  | logError (msg : String)
  /-- a bare `print(...)` line -/
  | printLine (msg : String)
deriving DecidableEq, Repr

/-- `which name` exits 0 in environment `e`. -/
def which_ok (e : Env) (name : String) : Bool :=
  if name = "cmake" then e.cmake_ok
  else if name = "g++" then e.gxx_ok
  else if name = "clang++" then e.clangxx_ok
  else if name = "pkg-config" then e.pkgconfig_ok
  else false

/-- `check_cmake()`: probe for `cmake`. -/
def check_cmake (e : Env) : Bool × List Event :=
  (which_ok e "cmake", [.checkTool "cmake"])

/-- `check_compiler()`: probe `g++` then `clang++`, stopping at the
first hit. -/
def check_compiler (e : Env) : Bool × List Event :=
  if which_ok e "g++" then (true, [.checkTool "g++"])
  else (which_ok e "clang++", [.checkTool "g++", .checkTool "clang++"])

/-- `check_pkg_config()`: probe for `pkg-config`. -/
def check_pkg_config (e : Env) : Bool × List Event :=
  (which_ok e "pkg-config", [.checkTool "pkg-config"])

/-- `check_dependency(pkg)`: `pkg-config --exists pkg` exits 0. -/
def check_dependency (e : Env) (pkg : String) : Bool :=
  e.libOk pkg

/-- `REQUIRED_DEPS`: pkg-config name paired with friendly name. -/
def REQUIRED_DEPS : List (String × String) :=
  [("libpipewire-0.3", "PipeWire"),
   ("libspa-0.2", "SPA (PipeWire)"),
   ("libmpg123", "mpg123"),
   ("sndfile", "libsndfile"),
   ("vorbisfile", "libvorbis"),
   ("icu-uc", "ICU"),
   ("icu-i18n", "ICU i18n")]

/-- The `cmake_args` list built at the top of `cmd_build`: base
invocation, then build type, then the optional debug-log flag, then
the optional install-prefix flag. -/
def cmakeArgs (a : Args) (src : String) : List String :=
  let base := ["cmake", "-S", src, "-B", src ++ "/build"]
  let base :=
    if a.debug || a.debug_log then base ++ ["-DCMAKE_BUILD_TYPE=Debug"]
    else base ++ ["-DCMAKE_BUILD_TYPE=Release"]
  let base := if a.debug_log then base ++ ["-DOUROBOROS_DEBUG_LOG=ON"] else base
  match a.prefixArg with
  | some p => base ++ ["-DCMAKE_INSTALL_PREFIX=" ++ p]
  | none => base

/-- `cmd_build(args, source_dir)`: configure, then compile; non-zero
exit of either step returns `False`; the final artifact check only
logs. -/
def cmd_build (e : Env) (a : Args) (src : String) : Bool × List Event :=
  let bdir := src ++ "/build"
  let tr : List Event := [.logInfo "CONFIGURING BUILD"]
  let tr := tr ++
    (if a.debug || a.debug_log then [Event.logInfo "Build type: Debug"]
     else [Event.logInfo "Build type: Release"])
  let tr := tr ++ (if a.debug_log then [Event.logInfo "Debug logging: enabled"] else [])
  let tr := tr ++
    (match a.prefixArg with
     | some p => [Event.logInfo ("Install prefix: " ++ p)]
     | none => [])
  let tr := tr ++ [.configure (cmakeArgs a src)]
  if e.configureExit ≠ 0 then (false, tr ++ [.logError "cmake configure failed!"])
  else
    let tr := tr ++ [.logInfo "Configuration complete", .logInfo "BUILDING",
      .logInfo ("Using " ++ toString e.jobs ++ " parallel jobs"),
      .compile e.jobs]
    if e.compileExit ≠ 0 then (false, tr ++ [.logError "Build failed!"])
    else
      let tr := tr ++
        (if e.binaryExists then
          [Event.logInfo ("Built " ++ bdir ++ "/ouroboros (" ++ toString e.binarySize ++ " bytes)")]
         else [])
      (true, tr)

/-- `cmd_install(args, source_dir)`: run `cmd_build` first; on its
failure return `False`; otherwise run the elevated install step. -/
def cmd_install (e : Env) (a : Args) (src : String) : Bool × List Event :=
  let r := cmd_build e a src
  if !r.1 then (false, r.2)
  else
    let bdir := src ++ "/build"
    let pfx := a.prefixArg.getD "/usr/local"
    let ipath := pfx ++ "/bin/ouroboros"
    let tr := r.2 ++ [.logInfo "INSTALLING", .logInfo ("Destination: " ++ ipath),
      .installProc bdir]
    if e.installExit ≠ 0 then (false, tr ++ [.logError "Install failed!"])
    else
      let tr := tr ++
        (if e.fileExists ipath then
          [Event.logInfo ("Installed " ++ ipath ++ " (" ++ toString e.installedSize ++ " bytes)")]
         else [])
      (true, tr ++ [.logInfo "SUCCESS. Installation complete.",
        .logInfo "RUN COMMAND: ouroboros", .logInfo "MAN PAGE: man ouroboros"])

/-- `cmd_clean(args, source_dir)`: remove the build directory if it
exists; always returns `True`. -/
def cmd_clean (e : Env) (_a : Args) (src : String) : Bool × List Event :=
  let bdir := src ++ "/build"
  let tr : List Event := [.logInfo "CLEANING"]
  if e.buildDirExists then
    (true, tr ++ [.logInfo ("Removing " ++ bdir), .rmTree bdir, .logInfo "Clean complete"])
  else
    (true, tr ++ [.logInfo "Nothing to clean"])

/-- The expected installed files of `cmd_uninstall` (binary and man
page under the configured prefix). -/
def uninstallFiles (a : Args) : List String :=
  let pfx := a.prefixArg.getD "/usr/local"
  [pfx ++ "/bin/ouroboros", pfx ++ "/share/man/man1/ouroboros.1"]

/-- The `for f in files` loop of `cmd_uninstall`: for each existing
file spawn `sudo rm -f`; a zero exit sets `removed`; a non-zero exit
only logs an error and the loop continues. -/
def uninstallLoop (e : Env) : List String → Bool → Bool × List Event
  | [], removed => (removed, [])
  | f :: rest, removed =>
    if e.fileExists f then
      if e.rmExit f = 0 then
        let r := uninstallLoop e rest true
        (r.1, [.logInfo ("Removing " ++ f), .rmProc f, .logInfo "Removed"] ++ r.2)
      else
        let r := uninstallLoop e rest removed
        (r.1, [.logInfo ("Removing " ++ f), .rmProc f, .logError "Failed to remove"] ++ r.2)
    else
      uninstallLoop e rest removed

/-- `cmd_uninstall(args, source_dir)`: remove whichever expected files
exist; warn when nothing was removed; always returns `True`. -/
def cmd_uninstall (e : Env) (a : Args) (_src : String) : Bool × List Event :=
  let r := uninstallLoop e (uninstallFiles a) false
  let tr := [Event.logInfo "UNINSTALLING"] ++ r.2
  let tr := tr ++ (if !r.1 then [Event.logWarn "No installed files found"] else [])
  (true, tr)

/-- The `ctest` invocation at the end of `cmd_test` and the
interpretation of its exit code. -/
def ctestRun (e : Env) (bdir : String) (tr : List Event) : Bool × List Event :=
  let tr := tr ++ [.ctest bdir]
  if e.ctestExit = 0 then (true, tr ++ [.logInfo "All tests passed"])
  else (false, tr ++ [.logError "Some tests failed"])

/-- `cmd_test(args, source_dir)`: build first when `build/Makefile` is
absent, then run `ctest`; the command succeeds iff `ctest` exits 0. -/
def cmd_test (e : Env) (a : Args) (src : String) : Bool × List Event :=
  let bdir := src ++ "/build"
  let tr : List Event := [.logInfo "RUNNING TESTS"]
  if !e.makefileExists then
    let tr := tr ++ [.logInfo "Project not built. Building first..."]
    let r := cmd_build e a src
    if !r.1 then (false, tr ++ r.2)
    else ctestRun e bdir (tr ++ r.2)
  else
    ctestRun e bdir tr

/-- Dispatch from the parsed command to its implementation (the
`commands` dict in `main`). -/
def runCommand (e : Env) (a : Args) (src : String) : Bool × List Event :=
  match a.command with
  | .install => cmd_install e a src
  | .build => cmd_build e a src
  | .clean => cmd_clean e a src
  | .uninstall => cmd_uninstall e a src
  | .test => cmd_test e a src

/-- The commands for which `main` runs the dependency checks
(`args.command in ["install", "build", "test"]`). -/
def needsDeps : Command → Bool
  | .install => true
  | .build => true
  | .test => true
  | .clean => false
  | .uninstall => false

/-- The three platform remediation lines printed when tool `t` is
missing. -/
def remediationFor (t : String) : List String :=
  if t = "cmake" then
    ["         Arch Linux:    sudo pacman -S cmake",
     "         Debian/Ubuntu: sudo apt install cmake",
     "         Fedora:        sudo dnf install cmake"]
  else if t = "C++ compiler" then
    ["         Arch Linux:    sudo pacman -S gcc",
     "         Debian/Ubuntu: sudo apt install build-essential",
     "         Fedora:        sudo dnf install gcc-c++"]
  else
    ["         Arch Linux:    sudo pacman -S pkgconf",
     "         Debian/Ubuntu: sudo apt install pkg-config",
     "         Fedora:        sudo dnf install pkgconf-pkg-config"]

/-- The platform remediation lines printed when libraries are
missing. -/
def libsRemediation : List String :=
  ["         Arch Linux: sudo pacman -S pipewire mpg123 libsndfile libvorbis icu openssl",
   "         Debian/Ubuntu: sudo apt install libpipewire-0.3-dev libspa-0.2-dev libmpg123-dev libsndfile1-dev libvorbis-dev libicu-dev libssl-dev",
   "         Fedora: sudo dnf install pipewire-devel mpg123-devel libsndfile-devel libvorbis-devel libicu-devel openssl-devel"]

/-- The `missing` list accumulated over `REQUIRED_DEPS` in `main`. -/
def missingDeps (e : Env) : List (String × String) :=
  REQUIRED_DEPS.filter (fun p => !(check_dependency e p.1))

/-- `main()` from argument parsing onward: dependency checks for
install/build/test (each missing tool returns 1 immediately with its
remediation lines; a non-empty missing-library set returns 1 with the
complete report), then command dispatch, exit code `0 if success
else 1`. -/
def main (e : Env) (a : Args) (src : String) : Int × List Event :=
  let tr : List Event := [.logInfo "OUROBOROS installer", .logInfo ("Source: " ++ src)]
  if needsDeps a.command then
    let tr := tr ++ [.logInfo "CHECKING DEPENDENCIES"]
    let c1 := check_cmake e
    let tr := tr ++ c1.2
    if !c1.1 then
      (1, tr ++ [.logError "cmake not found!", .logInfo "Install it first:"]
        ++ (remediationFor "cmake").map Event.printLine)
    else
      let tr := tr ++ [.logInfo "cmake found"]
      let c2 := check_compiler e
      let tr := tr ++ c2.2
      if !c2.1 then
        (1, tr ++ [.logError "C++ compiler not found!", .logInfo "Install it first:"]
          ++ (remediationFor "C++ compiler").map Event.printLine)
      else
        let tr := tr ++ [.logInfo "C++ compiler found"]
        let c3 := check_pkg_config e
        let tr := tr ++ c3.2
        if !c3.1 then
          (1, tr ++ [.logError "pkg-config not found!", .logInfo "Install it first:"]
            ++ (remediationFor "pkg-config").map Event.printLine)
        else
          let tr := tr ++ [.logInfo "pkg-config found"]
            ++ REQUIRED_DEPS.map (fun p => Event.checkLib p.1)
          let missing := missingDeps e
          if missing.isEmpty then
            let tr := tr ++ [.logInfo "All dependencies found"]
            let r := runCommand e a src
            (if r.1 then 0 else 1, tr ++ r.2)
          else
            (1, tr ++ [.logError "Missing dependencies!",
              .logInfo "The following libraries are required:"]
              ++ missing.map (fun p => Event.reportMissing p.1 p.2)
              ++ [.logInfo "Install them:"]
              ++ libsRemediation.map Event.printLine)
  else
    let r := runCommand e a src
    (if r.1 then 0 else 1, tr ++ r.2)

/-- The `__main__` guard: `sys.exit(main())`, and a `KeyboardInterrupt`
anywhere inside `main` exits with 130. -/
def processExit (e : Env) (a : Args) (src : String) (interrupted : Bool) : Int :=
  if interrupted then 130 else (main e a src).1

/-- Is this event the spawn of an external configure / build / install
/ test / removal process (as opposed to a probe or an output line)? -/
def Event.isSpawn : Event → Bool
  | .configure _ => true
  | .compile _ => true
  | .installProc _ => true
  | .ctest _ => true
  | .rmProc _ => true
  | _ => false

/-- Is this event a library probe? -/
def Event.isLibCheck : Event → Bool
  | .checkLib _ => true
  | _ => false

/-- Is this event a configure-step spawn? -/
def Event.isConfigure : Event → Bool
  | .configure _ => true
  | _ => false

/-- Is this event a compile-step spawn? -/
def Event.isCompile : Event → Bool
  | .compile _ => true
  | _ => false

/-- Is this event an operator-visible output line (log or print)? -/
def Event.isLog : Event → Bool
  | .logDebug _ => true
  | .logInfo _ => true
  | .logWarn _ => true
  | .logError _ => true
  | .printLine _ => true
  | _ => false

/-- The (query key, friendly name) pair of a missing-library report
event, if this event is one. -/
def reportMissingData : Event → Option (String × String)
  | .reportMissing k f => some (k, f)
  | _ => none

/-- The missing-library pairs reported in a trace. -/
def reportedMissing (tr : List Event) : List (String × String) :=
  tr.filterMap reportMissingData

/-- The first absent tool in the fixed priority order cmake, C++
compiler, pkg-config (the order of the checks in `main`). -/
def firstMissingTool (e : Env) : Option String :=
  if !(check_cmake e).1 then some "cmake"
  else if !(check_compiler e).1 then some "C++ compiler"
  else if !(check_pkg_config e).1 then some "pkg-config"
  else none

/-- Number of configure-step spawns in a trace. -/
def countConfigure (tr : List Event) : Nat :=
  (tr.filter Event.isConfigure).length

/-- Number of compile-step spawns in a trace. -/
def countCompile (tr : List Event) : Nat :=
  (tr.filter Event.isCompile).length

/-- The non-logging events of a trace (spawns and probes only). -/
def spawnTrace (tr : List Event) : List Event :=
  tr.filter (fun ev => !ev.isLog)

/-- An environment where every probe succeeds, every external process
exits 0 and every file exists. -/
def envAll : Env :=
  Env.mk true true true true (fun _ => true) 0 0 0 0 (fun _ => 0) 4
    true true true (fun _ => true) 100 200

/-- `envAll` except every `sudo rm -f` exits 1. -/
def envRmFail : Env :=
  { envAll with rmExit := fun _ => 1 }

/-!  ## Helper lemmas  -/

theorem configure_mem_build (e : Env) (a : Args) (src : String) :
    Event.configure (cmakeArgs a src) ∈ (cmd_build e a src).2 := by
  unfold cmd_build
  by_cases hc : e.configureExit = 0 <;> by_cases hk : e.compileExit = 0 <;>
    by_cases hb : e.binaryExists <;> simp [hc, hk, hb]

theorem installProc_not_mem_build (e : Env) (a : Args) (src : String) (d : String) :
    Event.installProc d ∉ (cmd_build e a src).2 := by
  unfold cmd_build
  rcases a with ⟨c, dbg, dlog, pa⟩
  cases dbg <;> cases dlog <;> cases pa <;>
    by_cases hc : e.configureExit = 0 <;> by_cases hk : e.compileExit = 0 <;>
      by_cases hb : e.binaryExists <;> simp [hc, hk, hb]

theorem ctest_not_mem_build (e : Env) (a : Args) (src : String) (d : String) :
    Event.ctest d ∉ (cmd_build e a src).2 := by
  unfold cmd_build
  rcases a with ⟨c, dbg, dlog, pa⟩
  cases dbg <;> cases dlog <;> cases pa <;>
    by_cases hc : e.configureExit = 0 <;> by_cases hk : e.compileExit = 0 <;>
      by_cases hb : e.binaryExists <;> simp [hc, hk, hb]

theorem countConfigure_build (e : Env) (a : Args) (src : String) :
    countConfigure (cmd_build e a src).2 = 1 := by
  unfold cmd_build countConfigure
  rcases a with ⟨c, dbg, dlog, pa⟩
  cases dbg <;> cases dlog <;> cases pa <;>
    by_cases hc : e.configureExit = 0 <;> by_cases hk : e.compileExit = 0 <;>
      by_cases hb : e.binaryExists <;>
        simp [hc, hk, hb, Event.isConfigure, List.filter_append]

theorem countCompile_build_le (e : Env) (a : Args) (src : String) :
    countCompile (cmd_build e a src).2 ≤ 1 := by
  unfold cmd_build countCompile
  rcases a with ⟨c, dbg, dlog, pa⟩
  cases dbg <;> cases dlog <;> cases pa <;>
    by_cases hc : e.configureExit = 0 <;> by_cases hk : e.compileExit = 0 <;>
      by_cases hb : e.binaryExists <;>
        simp [hc, hk, hb, Event.isCompile, List.filter_append]

theorem tools_ok_of_firstMissingTool_none (e : Env) (h : firstMissingTool e = none) :
    (check_cmake e).1 = true ∧ (check_compiler e).1 = true ∧ (check_pkg_config e).1 = true := by
  unfold firstMissingTool at h
  by_cases h1 : (check_cmake e).1 <;> by_cases h2 : (check_compiler e).1 <;>
    by_cases h3 : (check_pkg_config e).1 <;> simp_all

theorem no_reportMissing_build (e : Env) (a : Args) (src : String) (k f : String) :
    Event.reportMissing k f ∉ (cmd_build e a src).2 := by
  unfold cmd_build
  rcases a with ⟨c, dbg, dlog, pa⟩
  cases dbg <;> cases dlog <;> cases pa <;>
    by_cases hc : e.configureExit = 0 <;> by_cases hk : e.compileExit = 0 <;>
      by_cases hb : e.binaryExists <;> simp [hc, hk, hb]

theorem no_reportMissing_install (e : Env) (a : Args) (src : String) (k f : String) :
    Event.reportMissing k f ∉ (cmd_install e a src).2 := by
  have hb := no_reportMissing_build e a src k f
  unfold cmd_install
  by_cases h1 : (cmd_build e a src).1 <;> by_cases h2 : e.installExit = 0 <;>
    by_cases h3 : e.fileExists (a.prefixArg.getD "/usr/local" ++ "/bin/ouroboros") <;>
      simp [h1, h2, h3, hb]

theorem no_reportMissing_uninstallLoop (e : Env) (fs : List String) (r : Bool) (k f : String) :
    Event.reportMissing k f ∉ (uninstallLoop e fs r).2 := by
  induction fs generalizing r with
  | nil => simp [uninstallLoop]
  | cons x rest ih =>
    by_cases h1 : e.fileExists x <;> by_cases h2 : e.rmExit x = 0 <;>
      simp [uninstallLoop, h1, h2] <;> exact ih _

theorem no_reportMissing_runCommand (e : Env) (a : Args) (src : String) (k f : String) :
    Event.reportMissing k f ∉ (runCommand e a src).2 := by
  have hb := no_reportMissing_build e a src k f
  unfold runCommand
  rcases hcm : a.command
  · exact no_reportMissing_install e a src k f
  · exact hb
  · unfold cmd_clean
    by_cases h : e.buildDirExists <;> simp [h]
  · have hl1 := no_reportMissing_uninstallLoop e (uninstallFiles a) false k f
    unfold cmd_uninstall
    by_cases h : (uninstallLoop e (uninstallFiles a) false).1 <;> simp [h, hl1]
  · unfold cmd_test ctestRun
    by_cases hm : e.makefileExists <;> by_cases h1 : (cmd_build e a src).1 <;>
      by_cases hct : e.ctestExit = 0 <;> simp [hm, h1, hct, hb]

theorem reportedMissing_runCommand (e : Env) (a : Args) (src : String) :
    reportedMissing (runCommand e a src).2 = [] := by
  rw [reportedMissing, List.filterMap_eq_nil_iff]
  intro ev hev
  rcases ev <;> first
    | rfl
    | exact absurd hev (no_reportMissing_runCommand e a src _ _)

theorem filterMap_reportMissingData_runCommand (e : Env) (a : Args) (src : String) :
    List.filterMap reportMissingData (runCommand e a src).2 = [] :=
  reportedMissing_runCommand e a src

theorem filterMap_reportMissingData_map (l : List (String × String)) :
    List.filterMap (reportMissingData ∘ fun p => Event.reportMissing p.1 p.2) l = l := by
  induction l with
  | nil => rfl
  | cons x rest ih => simp [List.filterMap_cons, reportMissingData, Function.comp, ih]

theorem prefixFlag_ne (p s : String)
    (hs : List.take 9 s.data ≠ List.take 9 ("-DCMAKE_INSTALL_PREFIX=").data) :
    "-DCMAKE_INSTALL_PREFIX=" ++ p ≠ s := by
  intro h
  apply hs
  have h2 := congrArg (fun q => List.take 9 q.data) h
  simp only [String.data_append] at h2
  rw [List.take_append_of_le_length (by decide)] at h2
  exact h2.symm

theorem prefixFlag_ne_debugFlag (p : String) :
    "-DCMAKE_INSTALL_PREFIX=" ++ p ≠ "-DCMAKE_BUILD_TYPE=Debug" :=
  prefixFlag_ne p "-DCMAKE_BUILD_TYPE=Debug" (by decide)

theorem prefixFlag_ne_releaseFlag (p : String) :
    "-DCMAKE_INSTALL_PREFIX=" ++ p ≠ "-DCMAKE_BUILD_TYPE=Release" :=
  prefixFlag_ne p "-DCMAKE_BUILD_TYPE=Release" (by decide)

theorem prefixFlag_ne_logFlag (p : String) :
    "-DCMAKE_INSTALL_PREFIX=" ++ p ≠ "-DOUROBOROS_DEBUG_LOG=ON" :=
  prefixFlag_ne p "-DOUROBOROS_DEBUG_LOG=ON" (by decide)

theorem debugFlag_ne_prefixFlag (p : String) :
    "-DCMAKE_BUILD_TYPE=Debug" ≠ "-DCMAKE_INSTALL_PREFIX=" ++ p :=
  (prefixFlag_ne p "-DCMAKE_BUILD_TYPE=Debug" (by decide)).symm

theorem releaseFlag_ne_prefixFlag (p : String) :
    "-DCMAKE_BUILD_TYPE=Release" ≠ "-DCMAKE_INSTALL_PREFIX=" ++ p :=
  (prefixFlag_ne p "-DCMAKE_BUILD_TYPE=Release" (by decide)).symm

theorem logFlag_ne_prefixFlag (p : String) :
    "-DOUROBOROS_DEBUG_LOG=ON" ≠ "-DCMAKE_INSTALL_PREFIX=" ++ p :=
  (prefixFlag_ne p "-DOUROBOROS_DEBUG_LOG=ON" (by decide)).symm

/-!  ## Claims  -/

/-- C8: the clean command is idempotent at the outcome level: it
removes the build directory wholesale when it exists and returns
success, and on a non-existent build directory it also returns
success, emitting a "nothing to clean" signal rather than a failure. -/
theorem c8_clean_idempotent_success (e : Env) (a : Args) (src : String) :
    (cmd_clean e a src).1 = true ∧
    (e.buildDirExists = true → Event.rmTree (src ++ "/build") ∈ (cmd_clean e a src).2) ∧
    (e.buildDirExists = false →
      Event.logInfo "Nothing to clean" ∈ (cmd_clean e a src).2 ∧
      ∀ p, Event.rmTree p ∉ (cmd_clean e a src).2) := by
  by_cases h : e.buildDirExists <;> simp [cmd_clean, h]

/-- Witness for C8 at concrete inputs: an existing build directory is
removed with success, and an absent one yields the
"nothing to clean" signal with success and no removal. -/
theorem c8_clean_witness :
    ((cmd_clean envAll (Args.mk Command.clean false false none) "/s").1 = true ∧
      Event.rmTree "/s/build" ∈ (cmd_clean envAll (Args.mk Command.clean false false none) "/s").2) ∧
    Event.logInfo "Nothing to clean" ∈
      (cmd_clean { envAll with buildDirExists := false } (Args.mk Command.clean false false none) "/s").2 := by
  refine ⟨⟨(c8_clean_idempotent_success envAll (Args.mk Command.clean false false none) "/s").1,
    (c8_clean_idempotent_success envAll (Args.mk Command.clean false false none) "/s").2.1 rfl⟩,
    ((c8_clean_idempotent_success { envAll with buildDirExists := false }
      (Args.mk Command.clean false false none) "/s").2.2 rfl).1⟩

/-- C10: the build command succeeds exactly when both the configure and
the compile invocation exit 0; whether the expected binary artifact
exists afterwards (and its size) changes neither the outcome nor any
non-logging event of the trace. -/
theorem c10_build_outcome_ignores_artifact (e : Env) (a : Args) (src : String) (b : Bool) (n : Nat) :
    ((cmd_build e a src).1 = true ↔ (e.configureExit = 0 ∧ e.compileExit = 0)) ∧
    (cmd_build { e with binaryExists := b, binarySize := n } a src).1 = (cmd_build e a src).1 ∧
    spawnTrace (cmd_build { e with binaryExists := b, binarySize := n } a src).2
      = spawnTrace (cmd_build e a src).2 := by
  unfold cmd_build spawnTrace
  by_cases hc : e.configureExit = 0 <;> by_cases hk : e.compileExit = 0 <;>
    by_cases hb : e.binaryExists <;> by_cases hb2 : b <;>
      simp [hc, hk, hb, hb2, Event.isLog, List.filter_append]

/-- Witness for C10 at concrete inputs: with both cmake steps exiting 0
the build succeeds even though the binary artifact is absent. -/
theorem c10_build_witness :
    (cmd_build { envAll with binaryExists := false } (Args.mk Command.build false false none) "/s").1 = true := by
  exact ((c10_build_outcome_ignores_artifact { envAll with binaryExists := false }
    (Args.mk Command.build false false none) "/s" true 0).1).2 ⟨rfl, rfl⟩

/-- C3: the install command always runs the full build phase
(configure then compile) first — its trace starts with the build
trace, unconditionally in the state of any previous artifact — and a
failing build phase leaves the elevated install step uninvoked and the
command failed. -/
theorem c3_install_builds_first (e : Env) (a : Args) (src : String) (b b2 : Bool) :
    (cmd_build e a src).2 <+: (cmd_install e a src).2 ∧
    Event.configure (cmakeArgs a src) ∈ (cmd_install e a src).2 ∧
    cmd_install { e with buildDirExists := b, makefileExists := b2 } a src
      = cmd_install e a src ∧
    ((cmd_build e a src).1 = false →
      (cmd_install e a src).1 = false ∧
      ∀ d, Event.installProc d ∉ (cmd_install e a src).2) := by
  refine ⟨?_, ?_, rfl, ?_⟩
  · unfold cmd_install
    by_cases h1 : (cmd_build e a src).1 <;>
      simp [h1, List.append_assoc, List.prefix_append]
    by_cases h2 : e.installExit = 0 <;> by_cases h3 : e.fileExists (a.prefixArg.getD "/usr/local" ++ "/bin/ouroboros") <;>
      simp [h2, h3, List.append_assoc, List.prefix_append]
  · unfold cmd_install
    have hm := configure_mem_build e a src
    by_cases h1 : (cmd_build e a src).1 <;>
      by_cases h2 : e.installExit = 0 <;>
        by_cases h3 : e.fileExists (a.prefixArg.getD "/usr/local" ++ "/bin/ouroboros") <;>
          simp [h1, h2, h3, hm]
  · intro hfail
    have hni := installProc_not_mem_build e a src
    unfold cmd_install
    simp [hfail]
    exact fun d => hni d

/-- Witness for C3 at concrete inputs: with the configure step exiting
1 the build fails, so install fails and never spawns the elevated
install step. -/
theorem c3_install_witness :
    (cmd_install { envAll with configureExit := 1 } (Args.mk Command.install false false none) "/s").1 = false ∧
    Event.installProc "/s/build" ∉
      (cmd_install { envAll with configureExit := 1 } (Args.mk Command.install false false none) "/s").2 := by
  have h := (c3_install_builds_first { envAll with configureExit := 1 }
    (Args.mk Command.install false false none) "/s" true true).2.2.2 (by decide)
  exact ⟨h.1, h.2 "/s/build"⟩

/-- C6: the uninstall command always returns success; when none of the
expected installed files exist it spawns no elevated removal process
and reports the "nothing found" signal; when at least one file exists
and its removal exits 0 it reports the "removed" signal and not the
"nothing found" one. -/
theorem c6_uninstall_success_signals (e : Env) (a : Args) (src : String) :
    (cmd_uninstall e a src).1 = true ∧
    ((∀ f ∈ uninstallFiles a, e.fileExists f = false) →
      (∀ f, Event.rmProc f ∉ (cmd_uninstall e a src).2) ∧
      Event.logWarn "No installed files found" ∈ (cmd_uninstall e a src).2) ∧
    ((∃ f ∈ uninstallFiles a, e.fileExists f = true ∧ e.rmExit f = 0) →
      Event.logInfo "Removed" ∈ (cmd_uninstall e a src).2 ∧
      Event.logWarn "No installed files found" ∉ (cmd_uninstall e a src).2) := by
  by_cases h1 : e.fileExists (a.prefixArg.getD "/usr/local" ++ "/bin/ouroboros") <;>
    by_cases h2 : e.fileExists (a.prefixArg.getD "/usr/local" ++ "/share/man/man1/ouroboros.1") <;>
      by_cases h3 : e.rmExit (a.prefixArg.getD "/usr/local" ++ "/bin/ouroboros") = 0 <;>
        by_cases h4 : e.rmExit (a.prefixArg.getD "/usr/local" ++ "/share/man/man1/ouroboros.1") = 0 <;>
          simp [cmd_uninstall, uninstallFiles, uninstallLoop, h1, h2, h3, h4]

/-- Witness for C6 at concrete inputs: with no expected file present
the command succeeds, spawns no removal and warns "nothing found";
with files present and removable it succeeds and reports removal. -/
theorem c6_uninstall_witness :
    ((cmd_uninstall { envAll with fileExists := fun _ => false } (Args.mk Command.uninstall false false none) "/s").1 = true ∧
      Event.rmProc "/usr/local/bin/ouroboros" ∉
        (cmd_uninstall { envAll with fileExists := fun _ => false } (Args.mk Command.uninstall false false none) "/s").2 ∧
      Event.logWarn "No installed files found" ∈
        (cmd_uninstall { envAll with fileExists := fun _ => false } (Args.mk Command.uninstall false false none) "/s").2) ∧
    Event.logInfo "Removed" ∈
      (cmd_uninstall envAll (Args.mk Command.uninstall false false none) "/s").2 := by
  have h1 := (c6_uninstall_success_signals { envAll with fileExists := fun _ => false }
    (Args.mk Command.uninstall false false none) "/s").2.1 (by intro f _; rfl)
  have h2 := (c6_uninstall_success_signals envAll
    (Args.mk Command.uninstall false false none) "/s").2.2
    ⟨"/usr/local/bin/ouroboros", by decide, rfl, rfl⟩
  exact ⟨⟨(c6_uninstall_success_signals _ (Args.mk Command.uninstall false false none) "/s").1,
    h1.1 "/usr/local/bin/ouroboros", h1.2⟩, h2.1⟩

/-- C5: the test command with no build marker (`build/Makefile`) runs
exactly one build phase, placed before the test-runner invocation;
with the marker present it runs zero build phases; and whenever the
runner is reached its exit code alone determines the command's
success. -/
theorem c5_test_marker (e : Env) (a : Args) (src : String) :
    (e.makefileExists = false → countConfigure (cmd_test e a src).2 = 1) ∧
    (e.makefileExists = true →
      countConfigure (cmd_test e a src).2 = 0 ∧ countCompile (cmd_test e a src).2 = 0) ∧
    (e.makefileExists = false → (cmd_build e a src).1 = true →
      [Event.configure (cmakeArgs a src), Event.ctest (src ++ "/build")].Sublist (cmd_test e a src).2) ∧
    ((e.makefileExists = true ∨ (cmd_build e a src).1 = true) →
      ((cmd_test e a src).1 = true ↔ e.ctestExit = 0)) ∧
    (e.makefileExists = false → (cmd_build e a src).1 = false →
      (cmd_test e a src).1 = false ∧ ∀ d, Event.ctest d ∉ (cmd_test e a src).2) := by
  have hcount := countConfigure_build e a src
  have hmem := configure_mem_build e a src
  have hnct := ctest_not_mem_build e a src
  refine ⟨?_, ?_, ?_, ?_, ?_⟩
  · intro hm
    unfold cmd_test ctestRun
    by_cases hb : (cmd_build e a src).1 <;> by_cases hct : e.ctestExit = 0 <;>
      simp [hm, hb, hct, countConfigure, List.filter_append, Event.isConfigure] <;>
      simpa [countConfigure, List.filter_append] using hcount
  · intro hm
    unfold cmd_test ctestRun
    by_cases hct : e.ctestExit = 0 <;>
      simp [hm, hct, countConfigure, countCompile, List.filter_append,
        Event.isConfigure, Event.isCompile]
  · intro hm hb
    unfold cmd_test ctestRun
    have h1 : [Event.configure (cmakeArgs a src)].Sublist
        (([Event.logInfo "RUNNING TESTS"] ++ [Event.logInfo "Project not built. Building first..."])
          ++ (cmd_build e a src).2) :=
      List.Sublist.trans (List.singleton_sublist.mpr hmem) (List.sublist_append_right _ _)
    by_cases hct : e.ctestExit = 0
    · have h2 := List.Sublist.append h1 (List.sublist_append_left
        [Event.ctest (src ++ "/build")] [Event.logInfo "All tests passed"])
      simp only [hm, hb, hct]
      simpa [List.append_assoc] using h2
    · have h2 := List.Sublist.append h1 (List.sublist_append_left
        [Event.ctest (src ++ "/build")] [Event.logError "Some tests failed"])
      simp only [hm, hb, hct]
      simpa [List.append_assoc] using h2
  · intro hor
    unfold cmd_test ctestRun
    rcases hor with hm | hb
    · by_cases hct : e.ctestExit = 0 <;> simp [hm, hct]
    · by_cases hm : e.makefileExists <;> by_cases hct : e.ctestExit = 0 <;>
        simp [hm, hb, hct]
  · intro hm hb
    unfold cmd_test
    simp [hm, hb]
    exact fun d => hnct d

/-- Witness for C5 at concrete inputs: with the marker absent and a
successful build, the test command runs one build phase, the configure
spawn precedes the runner spawn, and success follows the runner's
exit 0. -/
theorem c5_test_witness :
    countConfigure (cmd_test { envAll with makefileExists := false } (Args.mk Command.test false false none) "/s").2 = 1 ∧
    countConfigure (cmd_test envAll (Args.mk Command.test false false none) "/s").2 = 0 ∧
    (cmd_test envAll (Args.mk Command.test false false none) "/s").1 = true := by
  refine ⟨(c5_test_marker { envAll with makefileExists := false }
      (Args.mk Command.test false false none) "/s").1 rfl,
    ((c5_test_marker envAll (Args.mk Command.test false false none) "/s").2.1 rfl).1,
    ((c5_test_marker envAll (Args.mk Command.test false false none) "/s").2.2.2.1
      (Or.inl rfl)).mpr rfl⟩

/-- C4 counterexample: in the uninstall command an external removal
process exits non-zero (exit 1) yet the command — and the whole
process — still reports success, so a non-zero external process is not
fatal for every command. -/
theorem c4_counterexample :
    Event.rmProc "/usr/local/bin/ouroboros" ∈
      (cmd_uninstall envRmFail (Args.mk Command.uninstall false false none) "/s").2 ∧
    envRmFail.rmExit "/usr/local/bin/ouroboros" = 1 ∧
    (cmd_uninstall envRmFail (Args.mk Command.uninstall false false none) "/s").1 = true ∧
    (main envRmFail (Args.mk Command.uninstall false false none) "/s").1 = 0 := by
  refine ⟨?_, rfl, rfl, rfl⟩
  decide

/-- C4 (amended): during build, install and test, any external process
exiting non-zero is fatal — the command fails and its remaining phases
are skipped, with each spawn occurring at most once (no retry); the
uninstall command instead logs a failed removal and still returns
success. -/
theorem c4_process_failure_fatal (e : Env) (a : Args) (src : String) :
    (e.configureExit ≠ 0 →
      (cmd_build e a src).1 = false ∧ ∀ j, Event.compile j ∉ (cmd_build e a src).2) ∧
    (e.compileExit ≠ 0 → (cmd_build e a src).1 = false) ∧
    ((cmd_build e a src).1 = true → e.installExit ≠ 0 → (cmd_install e a src).1 = false) ∧
    (e.makefileExists = false → (cmd_build e a src).1 = false →
      (cmd_test e a src).1 = false ∧ ∀ d, Event.ctest d ∉ (cmd_test e a src).2) ∧
    (e.ctestExit ≠ 0 → (cmd_test e a src).1 = false) ∧
    countConfigure (cmd_build e a src).2 = 1 ∧
    countCompile (cmd_build e a src).2 ≤ 1 ∧
    ((e.fileExists (a.prefixArg.getD "/usr/local" ++ "/bin/ouroboros") = true ∧
        e.rmExit (a.prefixArg.getD "/usr/local" ++ "/bin/ouroboros") ≠ 0) →
      Event.logError "Failed to remove" ∈ (cmd_uninstall e a src).2 ∧
      (cmd_uninstall e a src).1 = true) := by
  have hnct := ctest_not_mem_build e a src
  refine ⟨?_, ?_, ?_, ?_, ?_, countConfigure_build e a src, countCompile_build_le e a src, ?_⟩
  · intro hc
    constructor
    · unfold cmd_build
      simp [hc]
    · intro j
      unfold cmd_build
      rcases a with ⟨c, dbg, dlog, pa⟩
      cases dbg <;> cases dlog <;> cases pa <;> simp [hc]
  · intro hk
    unfold cmd_build
    by_cases hc : e.configureExit = 0 <;> simp [hc, hk]
  · intro hb hi
    unfold cmd_install
    simp [hb, hi]
  · intro hm hb
    unfold cmd_test
    simp [hm, hb]
    exact fun d => hnct d
  · intro hct
    unfold cmd_test ctestRun
    by_cases hm : e.makefileExists <;> by_cases hb : (cmd_build e a src).1 <;>
      simp [hm, hb, hct]
  · intro h
    by_cases h2 : e.fileExists (a.prefixArg.getD "/usr/local" ++ "/share/man/man1/ouroboros.1") <;>
      by_cases h4 : e.rmExit (a.prefixArg.getD "/usr/local" ++ "/share/man/man1/ouroboros.1") = 0 <;>
        simp [cmd_uninstall, uninstallFiles, uninstallLoop, h.1, h.2, h2, h4]

/-- Witness for C4 (amended) at concrete inputs: a configure step
exiting 1 fails the build with no compile spawn, and a failing removal
still leaves uninstall successful. -/
theorem c4_process_failure_witness :
    (cmd_build { envAll with configureExit := 1 } (Args.mk Command.build false false none) "/s").1 = false ∧
    Event.compile 4 ∉ (cmd_build { envAll with configureExit := 1 } (Args.mk Command.build false false none) "/s").2 ∧
    (cmd_uninstall envRmFail (Args.mk Command.uninstall false false none) "/s").1 = true := by
  have h := (c4_process_failure_fatal { envAll with configureExit := 1 }
    (Args.mk Command.build false false none) "/s").1 (by decide)
  have h2 := (c4_process_failure_fatal envRmFail
    (Args.mk Command.uninstall false false none) "/s").2.2.2.2.2.2.2 ⟨rfl, by decide⟩
  exact ⟨h.1, h.2 4, h2.2⟩

/-- C1: for build, install and test, a missing required tool makes the
command return failure (exit 1) before any library check runs and
before any configure/build/install/test process is spawned; the
reported tool is the first absent one in the priority order cmake,
C++ compiler, pkg-config, and the remediation text names the package
for three reference platforms. -/
theorem c1_missing_tool_failfast (e : Env) (a : Args) (src : String) (t : String)
    (hc : needsDeps a.command = true) (hm : firstMissingTool e = some t) :
    (main e a src).1 = 1 ∧
    (main e a src).2.filter (fun ev => ev.isSpawn || ev.isLibCheck) = [] ∧
    Event.logError (t ++ " not found!") ∈ (main e a src).2 ∧
    (remediationFor t).length = 3 ∧
    ∀ l ∈ remediationFor t, Event.printLine l ∈ (main e a src).2 := by
  by_cases h1 : which_ok e "cmake"
  case neg =>
    have hm' : "cmake" = t := by
      simpa [firstMissingTool, check_cmake, h1] using hm
    subst hm'
    simp [main, hc, check_cmake, h1, remediationFor, Event.isSpawn, Event.isLibCheck,
      List.filter_append]
  case pos =>
    by_cases hg : which_ok e "g++"
    case pos =>
      by_cases h3 : which_ok e "pkg-config"
      case pos =>
        exfalso
        simp [firstMissingTool, check_cmake, check_compiler, check_pkg_config, h1, hg, h3] at hm
      case neg =>
        have hm' : "pkg-config" = t := by
          simpa [firstMissingTool, check_cmake, check_compiler, check_pkg_config, h1, hg, h3]
            using hm
        subst hm'
        simp [main, hc, check_cmake, check_compiler, check_pkg_config, h1, hg, h3,
          remediationFor, Event.isSpawn, Event.isLibCheck, List.filter_append]
    case neg =>
      by_cases hcl : which_ok e "clang++"
      case pos =>
        by_cases h3 : which_ok e "pkg-config"
        case pos =>
          exfalso
          simp [firstMissingTool, check_cmake, check_compiler, check_pkg_config,
            h1, hg, hcl, h3] at hm
        case neg =>
          have hm' : "pkg-config" = t := by
            simpa [firstMissingTool, check_cmake, check_compiler, check_pkg_config,
              h1, hg, hcl, h3] using hm
          subst hm'
          simp [main, hc, check_cmake, check_compiler, check_pkg_config, h1, hg, hcl, h3,
            remediationFor, Event.isSpawn, Event.isLibCheck, List.filter_append]
      case neg =>
        have hm' : "C++ compiler" = t := by
          simpa [firstMissingTool, check_cmake, check_compiler, h1, hg, hcl] using hm
        subst hm'
        simp [main, hc, check_cmake, check_compiler, h1, hg, hcl,
          remediationFor, Event.isSpawn, Event.isLibCheck, List.filter_append]

/-- Witness for C1 at concrete inputs: with cmake absent, the build
command exits 1, reports "cmake not found!" and prints the three
platform remediation lines, with no library check or build spawn. -/
theorem c1_missing_tool_witness :
    (main { envAll with cmake_ok := false } (Args.mk Command.build false false none) "/s").1 = 1 ∧
    Event.logError "cmake not found!" ∈
      (main { envAll with cmake_ok := false } (Args.mk Command.build false false none) "/s").2 ∧
    (main { envAll with cmake_ok := false } (Args.mk Command.build false false none) "/s").2.filter
      (fun ev => ev.isSpawn || ev.isLibCheck) = [] := by
  have h := c1_missing_tool_failfast { envAll with cmake_ok := false }
    (Args.mk Command.build false false none) "/s" "cmake" rfl (by decide)
  exact ⟨h.1, h.2.2.1, h.2.1⟩

/-- C2: for build, install and test with all three tools present,
every entry of the fixed required-library list is probed, and the
missing-library report lists exactly the set of absent libraries
(with a non-empty set making the command fail). -/
theorem c2_libraries_exhaustive (e : Env) (a : Args) (src : String)
    (hc : needsDeps a.command = true) (ht : firstMissingTool e = none) :
    (∀ p ∈ REQUIRED_DEPS, Event.checkLib p.1 ∈ (main e a src).2) ∧
    reportedMissing (main e a src).2 = missingDeps e ∧
    (missingDeps e ≠ [] → (main e a src).1 = 1) := by
  obtain ⟨h1, h2, h3⟩ := tools_ok_of_firstMissingTool_none e ht
  have hw1 : which_ok e "cmake" = true := by simpa [check_cmake] using h1
  have hw3 : which_ok e "pkg-config" = true := by simpa [check_pkg_config] using h3
  have hrc := filterMap_reportMissingData_runCommand e a src
  refine ⟨?_, ?_, ?_⟩
  · intro p hp
    simp only [REQUIRED_DEPS, List.mem_cons, List.not_mem_nil, or_false] at hp
    by_cases hg : which_ok e "g++"
    · by_cases hmiss : missingDeps e = [] <;>
        rcases hp with rfl | rfl | rfl | rfl | rfl | rfl | rfl <;>
          simp [main, hc, check_cmake, check_compiler, check_pkg_config, hw1, hg, hw3, hmiss,
            REQUIRED_DEPS]
    · have hcl : which_ok e "clang++" = true := by simpa [check_compiler, hg] using h2
      by_cases hmiss : missingDeps e = [] <;>
        rcases hp with rfl | rfl | rfl | rfl | rfl | rfl | rfl <;>
          simp [main, hc, check_cmake, check_compiler, check_pkg_config, hw1, hg, hcl, hw3, hmiss,
            REQUIRED_DEPS]
  · by_cases hg : which_ok e "g++"
    · by_cases hmiss : missingDeps e = [] <;>
        simp [main, hc, check_cmake, check_compiler, check_pkg_config, hw1, hg, hw3, hmiss,
          reportedMissing, reportMissingData, List.filterMap_append, List.filterMap_map,
          Function.comp, hrc, REQUIRED_DEPS, libsRemediation, Prod.mk.eta, List.filterMap_some,
          filterMap_reportMissingData_map]
    · have hcl : which_ok e "clang++" = true := by simpa [check_compiler, hg] using h2
      by_cases hmiss : missingDeps e = [] <;>
        simp [main, hc, check_cmake, check_compiler, check_pkg_config, hw1, hg, hcl, hw3, hmiss,
          reportedMissing, reportMissingData, List.filterMap_append, List.filterMap_map,
          Function.comp, hrc, REQUIRED_DEPS, libsRemediation, Prod.mk.eta, List.filterMap_some,
          filterMap_reportMissingData_map]
  · intro hne
    by_cases hg : which_ok e "g++"
    · simp [main, hc, check_cmake, check_compiler, check_pkg_config, hw1, hg, hw3, hne]
    · have hcl : which_ok e "clang++" = true := by simpa [check_compiler, hg] using h2
      simp [main, hc, check_cmake, check_compiler, check_pkg_config, hw1, hg, hcl, hw3, hne]

/-- Witness for C2 at concrete inputs: with all tools present and one
library (mpg123) absent, all seven libraries are probed, exactly the
absent one is reported, and the command exits 1. -/
theorem c2_libraries_witness :
    Event.checkLib "icu-uc" ∈
      (main { envAll with libOk := fun s => !(s == "libmpg123") } (Args.mk Command.build false false none) "/s").2 ∧
    reportedMissing (main { envAll with libOk := fun s => !(s == "libmpg123") }
      (Args.mk Command.build false false none) "/s").2 = [("libmpg123", "mpg123")] ∧
    (main { envAll with libOk := fun s => !(s == "libmpg123") } (Args.mk Command.build false false none) "/s").1 = 1 := by
  have h := c2_libraries_exhaustive { envAll with libOk := fun s => !(s == "libmpg123") }
    (Args.mk Command.build false false none) "/s" rfl (by decide)
  refine ⟨h.1 ("icu-uc", "ICU") (by decide), ?_, h.2.2 (by decide)⟩
  rw [h.2.1]
  decide

/-- C7: the process exit status maps 1:1 to the command outcome:
interrupts exit 130, and whenever the per-command entry point runs
(dependency checks passed or not required) the exit status is 0
exactly on success and 1 exactly on failure. -/
theorem c7_exit_status_mapping (e : Env) (a : Args) (src : String)
    (hd : needsDeps a.command = true → firstMissingTool e = none ∧ missingDeps e = []) :
    processExit e a src true = 130 ∧
    (processExit e a src false = 0 ↔ (runCommand e a src).1 = true) ∧
    (processExit e a src false = 1 ↔ (runCommand e a src).1 = false) := by
  refine ⟨rfl, ?_, ?_⟩ <;>
  · unfold processExit main
    by_cases hn : needsDeps a.command
    · obtain ⟨ht, hm⟩ := hd hn
      obtain ⟨h1, h2, h3⟩ := tools_ok_of_firstMissingTool_none e ht
      by_cases hr : (runCommand e a src).1 <;>
        simp [hn, h1, h2, h3, hm, hr]
    · by_cases hr : (runCommand e a src).1 <;> simp [hn, hr]

/-- Witness for C7 at concrete inputs: an interrupt exits 130; a
successful install exits 0; a failing build (configure exits 1) makes
the process exit 1. -/
theorem c7_exit_status_witness :
    processExit envAll (Args.mk Command.install false false none) "/s" true = 130 ∧
    processExit envAll (Args.mk Command.install false false none) "/s" false = 0 ∧
    processExit { envAll with configureExit := 1 } (Args.mk Command.build false false none) "/s" false = 1 := by
  refine ⟨(c7_exit_status_mapping envAll (Args.mk Command.install false false none) "/s"
      (fun _ => ⟨rfl, rfl⟩)).1,
    (c7_exit_status_mapping envAll (Args.mk Command.install false false none) "/s"
      (fun _ => ⟨rfl, rfl⟩)).2.1.mpr rfl,
    (c7_exit_status_mapping { envAll with configureExit := 1 }
      (Args.mk Command.build false false none) "/s" (fun _ => ⟨rfl, rfl⟩)).2.2.mpr (by decide)⟩

/-- C9: the configure step's generator argument list is the
deterministic translation of the flags: after the five fixed base
arguments, the Debug build type appears iff `--debug` or
`--debug-log` is set (Release otherwise), the debug-logging flag
appears iff `--debug-log` is set, and an install-prefix flag appears
iff `--prefix` was given. -/
theorem c9_configure_flag_translation (e : Env) (a : Args) (src : String) :
    Event.configure (cmakeArgs a src) ∈ (cmd_build e a src).2 ∧
    (("-DCMAKE_BUILD_TYPE=Debug" ∈ (cmakeArgs a src).drop 5) ↔ (a.debug || a.debug_log) = true) ∧
    (("-DCMAKE_BUILD_TYPE=Release" ∈ (cmakeArgs a src).drop 5) ↔ (a.debug || a.debug_log) = false) ∧
    (("-DOUROBOROS_DEBUG_LOG=ON" ∈ (cmakeArgs a src).drop 5) ↔ a.debug_log = true) ∧
    (∀ q, ("-DCMAKE_INSTALL_PREFIX=" ++ q) ∈ (cmakeArgs a src).drop 5 →
      a.prefixArg.isSome = true) ∧
    (∀ q, a.prefixArg = some q →
      ("-DCMAKE_INSTALL_PREFIX=" ++ q) ∈ (cmakeArgs a src).drop 5) := by
  refine ⟨configure_mem_build e a src, ?_, ?_, ?_, ?_, ?_⟩ <;>
    rcases a with ⟨c, dbg, dlog, pa⟩ <;>
      cases dbg <;> cases dlog <;> rcases pa with _ | p <;>
        simp [cmakeArgs, debugFlag_ne_prefixFlag, releaseFlag_ne_prefixFlag,
          logFlag_ne_prefixFlag, prefixFlag_ne_debugFlag, prefixFlag_ne_releaseFlag,
          prefixFlag_ne_logFlag]

/-- Witness for C9 at concrete inputs: with `--debug-log` and
`--prefix /usr` the flag list carries the Debug build type, the
debug-logging flag and the install-prefix flag. -/
theorem c9_configure_flag_witness :
    "-DCMAKE_BUILD_TYPE=Debug" ∈ (cmakeArgs (Args.mk Command.build false true (some "/usr")) "/s").drop 5 ∧
    "-DOUROBOROS_DEBUG_LOG=ON" ∈ (cmakeArgs (Args.mk Command.build false true (some "/usr")) "/s").drop 5 ∧
    "-DCMAKE_INSTALL_PREFIX=/usr" ∈ (cmakeArgs (Args.mk Command.build false true (some "/usr")) "/s").drop 5 := by
  have h := c9_configure_flag_translation envAll (Args.mk Command.build false true (some "/usr")) "/s"
  exact ⟨h.2.1.mpr rfl, h.2.2.2.1.mpr rfl, h.2.2.2.2.2 "/usr" rfl⟩

end Ouroboros
